import Mathlib

/-!
Verification of the replicated SQLite store of zte-opensource/consul.

Shallow embedding of:
- `agent/consul/state/sqldb.go` (`SQLDB`: `NewSQLDB`, `Open`, `Close`,
  `Execute`, `Query`, `Restore`, `Backup`),
- `agent/consul/sqldb_endpoint.go` (`SQL.execute` / `SQL.query`),
- `agent/consul/server_lookup.go` (`ServerLookup`),
- `agent/structs/sqldb.go` (wire data model).

External effects (filesystem calls, sqlite engine calls) are modelled by
explicit outcome environments: each fallible call the Go code makes gets a
boolean field saying whether that call fails.  Methods that mutate their
receiver are modelled as functions returning the updated store together with
the returned error, so that partial mutation on error paths is observable,
exactly as in the Go code.
-/

set_option maxHeartbeats 1000000
set_option maxRecDepth 100000

namespace Consul

/-- Handle to a sqlite engine instance, recording the arguments the Go code
passes to `sqlite.NewDB(path, dsn, memory)`. -/
structure DBInstance where
  path : String
  dsn : String
  inMemory : Bool
deriving DecidableEq

/-- Handle to a connection to an engine instance (`sqlite.Conn`). -/
structure ConnInstance where
  db : DBInstance
deriving DecidableEq

/-- The `SQLDB` struct of `agent/consul/state/sqldb.go`: database path, custom
DSN, memory-only flag, engine handle `db` and utility-connection handle
`dbConn` (`none` models a nil Go pointer), the `closed` flag, and the live
database contents as observable through the utility connection (abstracted to
a byte list). -/
structure SQLDB where
  dbPath : String
  dsn : String
  memory : Bool
  db : Option DBInstance
  dbConn : Option ConnInstance
  closed : Bool
  liveContents : List Nat
deriving DecidableEq

/-- The `sqliteFile` constant of sqldb.go. -/
def sqliteFile : String := "db.sqlite"

/-- The struct literal inside `NewSQLDB` (sqldb.go lines 61-64): only `dbPath`
and `logger` are set; every other field keeps its Go zero value, so `dsn` is
the empty string and `memory` is `false` regardless of the `dsn` and `memory`
parameters passed to `NewSQLDB`.  The underscore parameters mirror the ignored
Go parameters. -/
def mkSQLDB (dir : String) (_dsnArg : String) (_memoryArg : Bool) : SQLDB :=
  { dbPath := dir ++ "/" ++ sqliteFile
  , dsn := ""
  , memory := false
  , db := none
  , dbConn := none
  , closed := false
  , liveContents := [] }

/-- Errors returned by the store operations, one constructor per distinct
error source in sqldb.go. -/
inductive StoreErr where
  | invalidState
  | removeErr
  | newDBErr
  | connectErr
  | connCloseErr
  | tempFileErr
  | writeErr
  | loadErr
  | backupErr
  | fCloseErr
  | fOpenErr
  | copyErr
deriving DecidableEq

/-- Outcomes of the fallible external calls made by `SQLDB.Open`:
`os.Remove` (a failure other than not-exist), `sqlite.NewDB`, `db.Connect`. -/
structure OpenEnv where
  removeFails : Bool
  newDBFails : Bool
  connectFails : Bool
deriving DecidableEq

/-- Result of an `Open` call: the returned error, the store as left by the
call (the Go method mutates its receiver in place, so partially-updated
fields survive error returns), and whether `os.Remove` was attempted on the
database file. -/
structure OpenResult where
  err : Option StoreErr
  store : SQLDB
  removeAttempted : Option String
deriving DecidableEq

/-- `SQLDB.Open` (sqldb.go lines 74-111).  Fails with `ErrStoreInvalidState`
only when `closed` is set.  In the non-memory branch it first calls
`os.Remove(s.dbPath)` and then `sqlite.NewDB(s.dbPath, s.dsn, false)`; in the
memory branch it calls `sqlite.NewDB(s.dbPath, s.dsn, true)` without touching
the filesystem.  `s.db` is assigned before `Connect` is attempted, so a
failing `Connect` leaves `db` set and `dbConn` nil. -/
def SQLDB.openStore (s : SQLDB) (env : OpenEnv) : OpenResult :=
  if s.closed then
    ⟨some StoreErr.invalidState, s, none⟩
  else if !s.memory then
    if env.removeFails then ⟨some StoreErr.removeErr, s, some s.dbPath⟩
    else if env.newDBFails then ⟨some StoreErr.newDBErr, s, some s.dbPath⟩
    else
      let dbi : DBInstance := ⟨s.dbPath, s.dsn, false⟩
      if env.connectFails then
        ⟨some StoreErr.connectErr, { s with db := some dbi }, some s.dbPath⟩
      else
        ⟨none, { s with db := some dbi, dbConn := some ⟨dbi⟩ }, some s.dbPath⟩
  else
    if env.newDBFails then ⟨some StoreErr.newDBErr, s, none⟩
    else
      let dbi : DBInstance := ⟨s.dbPath, s.dsn, true⟩
      if env.connectFails then
        ⟨some StoreErr.connectErr, { s with db := some dbi }, none⟩
      else
        ⟨none, { s with db := some dbi, dbConn := some ⟨dbi⟩ }, none⟩

/-- `NewSQLDB` (sqldb.go lines 56-70): builds the struct literal and
immediately calls `Open` on it. -/
def NewSQLDB (dir : String) (dsnArg : String) (memoryArg : Bool)
    (env : OpenEnv) : OpenResult :=
  (mkSQLDB dir dsnArg memoryArg).openStore env

/-- Outcome of the one fallible call made by `SQLDB.Close`:
`s.dbConn.Close()`. -/
structure CloseEnv where
  connCloseFails : Bool
deriving DecidableEq

/-- Result of a `Close` call: returned error and the store as left by it. -/
structure CloseResult where
  err : Option StoreErr
  store : SQLDB
deriving DecidableEq

/-- `SQLDB.Close` (sqldb.go lines 115-132).  Returns nil immediately when
already closed.  Otherwise the deferred `s.closed = true` runs on every
remaining path, including the path where `dbConn.Close()` fails; only on the
successful path are `dbConn` and `db` nulled. -/
def SQLDB.close (s : SQLDB) (_wait : Bool) (env : CloseEnv) : CloseResult :=
  if s.closed then ⟨none, s⟩
  else if env.connCloseFails then
    ⟨some StoreErr.connCloseErr, { s with closed := true }⟩
  else
    ⟨none, { s with dbConn := none, db := none, closed := true }⟩

/-- Outcomes of the fallible external calls made by `SQLDB.Restore`:
`ioutil.TempFile`, `f.Write`, `sqlite.NewDB` on the temp file, `db.Connect`,
and `s.dbConn.Load`. -/
structure RestoreEnv where
  tempFileFails : Bool
  writeFails : Bool
  newDBFails : Bool
  connectFails : Bool
  loadFails : Bool
deriving DecidableEq

/-- Result of a `Restore` call. -/
structure RestoreResult where
  err : Option StoreErr
  store : SQLDB
deriving DecidableEq

/-- `SQLDB.Restore` (sqldb.go lines 153-185).  Writes the snapshot bytes to a
fresh temporary file, opens a separate engine instance on it, connects, and
calls `s.dbConn.Load(conn)`.  The deferred `os.Remove`, `f.Close` and
`conn.Close` act only on the temporary resources and never touch the live
store.

Modelled from the spec: the sqlite adapter package
(`agent/consul/state/sqlite`) is not in the source tree; per spec section 4.1
`load(targetConn, sourceConn)` "replaces the contents addressed by targetConn
with the contents addressed by sourceConn, atomically from the perspective of
subsequent queries" and fails with `LoadError` — so a successful load replaces
the live contents with the snapshot bytes and a failing load leaves them
unchanged. -/
def SQLDB.restore (s : SQLDB) (src : List Nat) (env : RestoreEnv) :
    RestoreResult :=
  if env.tempFileFails then ⟨some StoreErr.tempFileErr, s⟩
  else if env.writeFails then ⟨some StoreErr.writeErr, s⟩
  else if env.newDBFails then ⟨some StoreErr.newDBErr, s⟩
  else if env.connectFails then ⟨some StoreErr.connectErr, s⟩
  else if env.loadFails then ⟨some StoreErr.loadErr, s⟩
  else ⟨none, { s with liveContents := src }⟩

/-- Outcomes of the fallible external calls made by `SQLDB.Backup`:
`ioutil.TempFile`, `f.Close`, `sqlite.NewDB` on the temp path, `db.Connect`,
`s.dbConn.Backup`, `conn.Close`, `os.Open`, and `io.Copy`. -/
structure BackupEnv where
  tempFileFails : Bool
  fCloseFails : Bool
  newDBFails : Bool
  connectFails : Bool
  backupFails : Bool
  connCloseFails : Bool
  openFails : Bool
  copyFails : Bool
deriving DecidableEq

/-- Result of a `Backup` call: the returned error, whether a file still
exists at the temporary path after the call returns, and the bytes written
into the destination buffer (`none` when `io.Copy` was never reached or
failed). -/
structure BackupResult where
  err : Option StoreErr
  tempFileRemains : Bool
  dstContents : Option (List Nat)
deriving DecidableEq

/-- `SQLDB.Backup` (sqldb.go lines 188-222).  Creates a temporary file,
closes it, removes it once with `os.Remove(f.Name())`, then recreates a
database file at that same path via `sqlite.NewDB`, copies the live state
into it with `s.dbConn.Backup(conn)`, and streams its bytes into `dst` with
`io.Copy`.  There is no removal of the recreated file on any later path:
no deferred `os.Remove` exists in this function.

Modelled from the spec for the file-existence bookkeeping: the sqlite adapter
is not in the source tree; per spec section 4.1 `open` "creates a fresh engine
instance at that path", so a successful `sqlite.NewDB` on the temp path
recreates the file there (and the subsequent successful `os.Open` of that
path in the Go code confirms it exists).  A failing `sqlite.NewDB` is
modelled as creating no file. -/
def SQLDB.backup (s : SQLDB) (env : BackupEnv) : BackupResult :=
  if env.tempFileFails then ⟨some StoreErr.tempFileErr, false, none⟩
  else if env.fCloseFails then ⟨some StoreErr.fCloseErr, true, none⟩
  else if env.newDBFails then ⟨some StoreErr.newDBErr, false, none⟩
  else if env.connectFails then ⟨some StoreErr.connectErr, true, none⟩
  else if env.backupFails then ⟨some StoreErr.backupErr, true, none⟩
  else if env.connCloseFails then ⟨some StoreErr.connCloseErr, true, none⟩
  else if env.openFails then ⟨some StoreErr.fOpenErr, true, none⟩
  else if env.copyFails then ⟨some StoreErr.copyErr, true, none⟩
  else ⟨none, true, some s.liveContents⟩

/-- A concrete fully-open store used to evaluate the model at specific
inputs. -/
def sampleOpenStore : SQLDB :=
  { dbPath := "/data/db.sqlite"
  , dsn := ""
  , memory := false
  , db := some ⟨"/data/db.sqlite", "", false⟩
  , dbConn := some ⟨⟨"/data/db.sqlite", "", false⟩⟩
  , closed := false
  , liveContents := [1, 2, 3] }

/-- Handle-state invariant claimed by the spec: the store is either fully
open (engine handle and connection handle both non-null) or fully closed
(both null). -/
def fullyOpenOrClosed (s : SQLDB) : Prop :=
  (s.db.isSome = true ∧ s.dbConn.isSome = true) ∨
    (s.db = none ∧ s.dbConn = none)

/-! ## Wire data model and consensus-driven endpoint
(`agent/structs/sqldb.go`, `agent/consul/sqldb_endpoint.go`) -/

/-- `sqlite.Result`: outcome of one statement of an Execute batch.  The
per-statement error travels as a string field. -/
structure SQLResult where
  lastInsertID : Int
  rowsAffected : Int
  errorStr : String
deriving DecidableEq

/-- `structs.SQLExecuteResponse`: per-statement results plus the overall
`Err` populated by the store from the engine call. -/
structure SQLExecuteResponse where
  results : List SQLResult
  err : Option String
deriving DecidableEq

/-- The possible values of `s.srv.raftApply(...)` as consumed by
`SQL.execute` (sqldb_endpoint.go lines 31-49): a non-nil error return from
`raftApply` itself (submission-time rejection or commit-time failure), a
committed-and-applied `*SQLExecuteResponse`, or an error value carried in
the `interface` result. -/
inductive RaftApplyOutcome where
  | applyErr (e : String)
  | response (r : SQLExecuteResponse)
  | errValue (e : String)
deriving DecidableEq

/-- What an endpoint call returns: the Go error and the contents of the
`reply` out-parameter after the call. -/
structure EndpointResult where
  err : Option String
  reply : SQLExecuteResponse
deriving DecidableEq

/-- `SQL.execute` (sqldb_endpoint.go lines 31-49).  A non-nil `raftApply`
error is returned directly.  A committed `*SQLExecuteResponse` is copied
into `reply` and the code then returns `r.Err` — the response envelope's
overall error — as the endpoint-level error.  An error value in the applied
result is returned directly. -/
def SQL.execute (outcome : RaftApplyOutcome) (reply : SQLExecuteResponse) :
    EndpointResult :=
  match outcome with
  | RaftApplyOutcome.applyErr e => ⟨some e, reply⟩
  | RaftApplyOutcome.response r => ⟨r.err, r⟩
  | RaftApplyOutcome.errValue e => ⟨some e, reply⟩

/-! ## Peer directory (`agent/consul/server_lookup.go`) -/

/-- The parts of `metadata.Server` that `ServerLookup` keys on: `server.ID`
and `server.Addr.String()`. -/
structure Server where
  id : String
  addr : String
deriving DecidableEq

/-- The two synchronized indexes of `ServerLookup`, as association lists
with Go-map semantics (later insert shadows, delete removes the key). -/
structure ServerLookup where
  addressToServer : List (String × Server)
  idToServer : List (String × Server)
deriving DecidableEq

/-- Go map read: the most recent binding of the key, if any. -/
def mapGet (k : String) : List (String × Server) → Option Server
  | [] => none
  | (k1, v) :: m => if k1 = k then some v else mapGet k m

/-- Go map write `m[k] = v`: the new binding shadows older ones. -/
def mapPut (k : String) (v : Server) (m : List (String × Server)) :
    List (String × Server) :=
  (k, v) :: m

/-- Go map `delete(m, k)`: the key becomes absent. -/
def mapDel (k : String) : List (String × Server) → List (String × Server)
  | [] => []
  | (k1, v) :: m => if k1 = k then mapDel k m else (k1, v) :: mapDel k m

/-- `NewServerLookup`: both indexes empty. -/
def NewServerLookup : ServerLookup := ⟨[], []⟩

/-- `ServerLookup.AddServer` (server_lookup.go lines 30-35): inserts the
server into both indexes under one lock. -/
def ServerLookup.addServer (sl : ServerLookup) (s : Server) : ServerLookup :=
  ⟨mapPut s.addr s sl.addressToServer, mapPut s.id s sl.idToServer⟩

/-- `ServerLookup.RemoveServer` (server_lookup.go lines 39-44): deletes the
server's address key and id key from the two indexes. -/
def ServerLookup.removeServer (sl : ServerLookup) (s : Server) : ServerLookup :=
  ⟨mapDel s.addr sl.addressToServer, mapDel s.id sl.idToServer⟩

/-- `ServerLookup.ServerAddr` (server_lookup.go lines 47-55): looks the id up
in `idToServer` and returns the found server's address; `none` models the
"Could not find address for server id" error return. -/
def ServerLookup.serverAddr (sl : ServerLookup) (id : String) : Option String :=
  (mapGet id sl.idToServer).map Server.addr

/-- `ServerLookup.Server` (server_lookup.go lines 58-63): looks the address
up in `addressToServer`; a nil result models absence. -/
def ServerLookup.server (sl : ServerLookup) (addr : String) : Option Server :=
  mapGet addr sl.addressToServer

/-- A mutation on the peer directory. -/
inductive SLOp where
  | add (s : Server)
  | remove (s : Server)
deriving DecidableEq

/-- The server an operation mentions. -/
def opServer : SLOp → Server
  | SLOp.add s => s
  | SLOp.remove s => s

/-- Whether an operation is an `AddServer`. -/
def isAdd : SLOp → Bool
  | SLOp.add _ => true
  | SLOp.remove _ => false

/-- Apply one mutation to the directory. -/
def applyOp (sl : ServerLookup) : SLOp → ServerLookup
  | SLOp.add s => sl.addServer s
  | SLOp.remove s => sl.removeServer s

/-- Run a call sequence against a fresh `NewServerLookup`. -/
def runOps (ops : List SLOp) : ServerLookup :=
  ops.foldl applyOp NewServerLookup

/-- Fold step computing the last add/remove verdict for a given server. -/
def statusStep (s : Server) (acc : Option Bool) (op : SLOp) : Option Bool :=
  if opServer op = s then some (isAdd op) else acc

/-- `some true` when the last operation mentioning `s` was an add ("added
and not since removed"), `some false` when it was a remove, `none` when `s`
is never mentioned. -/
def lastStatus (s : Server) (ops : List SLOp) : Option Bool :=
  ops.foldl (statusStep s) none

/-- Two servers either are the same peer or collide on neither index key. -/
def distinctKeys (s t : Server) : Prop :=
  s = t ∨ (s.id ≠ t.id ∧ s.addr ≠ t.addr)

/-- Every pair of peers mentioned in the call sequence is key-disjoint or
identical. -/
def goodOps (ops : List SLOp) : Prop :=
  ∀ op1 ∈ ops, ∀ op2 ∈ ops, distinctKeys (opServer op1) (opServer op2)

/-! ## Restore exclusivity (`SQLDB.Execute`/`Query` vs `SQLDB.Restore`)

`Execute` and `Query` run under `restoreMu.RLock()`; `Restore` runs under
`restoreMu.Lock()` (sqldb.go lines 135-155).  The model below runs one
reader thread (a `Query`/`Execute` reading the database row by row inside
its shared section) against one `Restore` thread (replacing the database
row by row inside its exclusive section) under reader/writer-lock
semantics, over every possible interleaving.  Row values are `false`
(pre-restore) and `true` (post-restore). -/

/-- Combined state of the lock, the two database rows, the two thread
program counters, and the values the reader observed. -/
structure RWState where
  readers : Nat
  writer : Bool
  row0 : Bool
  row1 : Bool
  qpc : Nat
  rpc : Nat
  read0 : Bool
  read1 : Bool
deriving DecidableEq

/-- Initial state: lock free, both rows pre-restore, both threads at their
first action. -/
def initRW : RWState :=
  ⟨0, false, false, false, 0, 0, false, false⟩

/-- Whether the reader thread's next action can run: `RLock` (pc 0) needs no
writer holding the lock, exactly as `sync.RWMutex.RLock`; the in-section
reads and `RUnlock` are always enabled; a finished thread has nothing to
run. -/
def queryEnabled (s : RWState) : Bool :=
  if s.qpc = 0 then !s.writer
  else if s.qpc < 4 then true
  else false

/-- One step of the reader thread, mirroring `SQLDB.Query`:
`restoreMu.RLock()`; read row 0; read row 1; `restoreMu.RUnlock()`. -/
def queryStep (s : RWState) : RWState :=
  if s.qpc = 0 then { s with readers := s.readers + 1, qpc := 1 }
  else if s.qpc = 1 then { s with read0 := s.row0, qpc := 2 }
  else if s.qpc = 2 then { s with read1 := s.row1, qpc := 3 }
  else if s.qpc = 3 then { s with readers := s.readers - 1, qpc := 4 }
  else s

/-- Whether the restore thread's next action can run: `Lock` (pc 0) needs no
reader and no writer holding the lock, exactly as `sync.RWMutex.Lock`. -/
def restoreEnabled (s : RWState) : Bool :=
  if s.rpc = 0 then decide (s.readers = 0) && !s.writer
  else if s.rpc < 4 then true
  else false

/-- One step of the restore thread, mirroring `SQLDB.Restore`:
`restoreMu.Lock()`; replace row 0; replace row 1; `restoreMu.Unlock()`. -/
def restoreStep (s : RWState) : RWState :=
  if s.rpc = 0 then { s with writer := true, rpc := 1 }
  else if s.rpc = 1 then { s with row0 := true, rpc := 2 }
  else if s.rpc = 2 then { s with row1 := true, rpc := 3 }
  else if s.rpc = 3 then { s with writer := false, rpc := 4 }
  else s

/-- Run a schedule (`true` = restore thread steps, `false` = reader thread
steps); `none` when the schedule asks a blocked or finished thread to
step. -/
def runSched : List Bool → RWState → Option RWState
  | [], s => some s
  | b :: rest, s =>
    if b then
      if restoreEnabled s then runSched rest (restoreStep s) else none
    else
      if queryEnabled s then runSched rest (queryStep s) else none

/-- Decode an 8-step schedule from the bits of a number below 256. -/
def schedBits (n : Nat) : List Bool :=
  (List.range 8).map (fun i => n.testBit i)

/-- A schedule is safe when it is invalid (blocked) or its completed run
left the reader with two reads from the same epoch: both pre-restore or
both post-restore, never a mix. -/
def schedOK (n : Nat) : Bool :=
  match runSched (schedBits n) initRW with
  | some s => s.read0 == s.read1
  | none => true

/-! ## Helper lemmas -/

/-- Any `Close` call leaves the `closed` flag set when it was set, and sets
it otherwise: past the early-return guard the deferred assignment runs on
every path. -/
theorem closed_after_close (s : SQLDB) (w : Bool) (env : CloseEnv) :
    (s.close w env).store.closed = true ∨
      ((s.close w env).store = s ∧ s.closed = true) := by
  unfold SQLDB.close
  by_cases hc : s.closed
  · exact Or.inr ⟨by simp [hc], hc⟩
  · by_cases he : env.connCloseFails <;> simp [hc, he]

/-- An `Open` on a store whose `closed` flag is set fails with the
invalid-state error and changes nothing. -/
theorem openStore_of_closed (s : SQLDB) (env : OpenEnv) (h : s.closed = true) :
    s.openStore env = ⟨some StoreErr.invalidState, s, none⟩ := by
  unfold SQLDB.openStore
  simp [h]

/-! ## Claim theorems -/

/-- Claim C1: if `SQLDB.Restore` returns an error at any step (temp-file
creation, write, engine open, connect, or load), the live store is exactly
what it was before the call — no partial state transfer is observable. -/
theorem sqldb_restore_error_leaves_state (s : SQLDB) (src : List Nat)
    (env : RestoreEnv) (e : StoreErr)
    (h : (s.restore src env).err = some e) :
    (s.restore src env).store = s := by
  unfold SQLDB.restore at h ⊢
  by_cases h1 : env.tempFileFails <;>
    by_cases h2 : env.writeFails <;>
      by_cases h3 : env.newDBFails <;>
        by_cases h4 : env.connectFails <;>
          by_cases h5 : env.loadFails <;>
            simp_all

/-- Witness for C1: a concrete failing restore (load failure) leaves the
sample store unchanged. -/
theorem sqldb_restore_error_leaves_state_witness :
    (sampleOpenStore.restore [9, 9] ⟨false, false, false, false, true⟩).store
      = sampleOpenStore :=
  sqldb_restore_error_leaves_state sampleOpenStore [9, 9]
    ⟨false, false, false, false, true⟩ StoreErr.loadErr (by decide)

/-- Counterexample to claim C2 as stated: a log entry that commits and is
applied, whose response envelope carries a non-nil overall `Err`, makes the
endpoint return that error at the transport level — not a nil error — even
though the reply envelope was filled in. -/
theorem sql_execute_committed_err_cex :
    ¬ ((SQL.execute
        (RaftApplyOutcome.response ⟨[⟨0, 0, "no such table"⟩], some "execute failed"⟩)
        ⟨[], none⟩).err = none) := by
  decide

/-- Claim C2 amended: a committed and applied response is copied into the
reply and its overall `Err` field is returned as the endpoint error, so the
endpoint returns nil exactly when the envelope's overall error is nil
(per-statement error strings inside `results` do not affect the endpoint
error); a `raftApply` failure is returned directly. -/
theorem sql_execute_endpoint_outcomes (r reply0 : SQLExecuteResponse)
    (e : String) :
    SQL.execute (RaftApplyOutcome.response r) reply0 = ⟨r.err, r⟩ ∧
      SQL.execute (RaftApplyOutcome.applyErr e) reply0 = ⟨some e, reply0⟩ :=
  ⟨rfl, rfl⟩

/-- Claim C3: `NewSQLDB` ignores its `dsn` and `memory` parameters — the
struct literal sets neither field — so a store constructed with
memoryOnly true still has `memory = false` and empty `dsn`, and its `Open`
attempts `os.Remove` on the database path and creates a file-based engine
instance with an empty connection string instead of a transient in-memory
one. -/
theorem newSQLDB_ignores_memory_and_dsn :
    (mkSQLDB "/node" "cache=shared" true).memory = false ∧
    (mkSQLDB "/node" "cache=shared" true).dsn = "" ∧
    (NewSQLDB "/node" "cache=shared" true ⟨false, false, false⟩).err = none ∧
    (NewSQLDB "/node" "cache=shared" true ⟨false, false, false⟩).removeAttempted
      = some (mkSQLDB "/node" "cache=shared" true).dbPath ∧
    ((NewSQLDB "/node" "cache=shared" true ⟨false, false, false⟩).store.db.map
      DBInstance.inMemory) = some false ∧
    ((NewSQLDB "/node" "cache=shared" true ⟨false, false, false⟩).store.db.map
      DBInstance.dsn) = some "" := by
  refine ⟨rfl, rfl, rfl, rfl, rfl, rfl⟩

/-- Counterexample to claim C4 as stated: `Open` on a store that is already
fully open does not fail with the invalid-state error — it succeeds
(re-opening the engine), because the code only checks the `closed` flag. -/
theorem sqldb_open_already_open_cex :
    sampleOpenStore.db.isSome = true ∧
    sampleOpenStore.dbConn.isSome = true ∧
    sampleOpenStore.closed = false ∧
    (sampleOpenStore.openStore ⟨false, false, false⟩).err = none := by
  refine ⟨rfl, rfl, rfl, rfl⟩

/-- Claim C4 amended: `Open` fails with the invalid-state error exactly when
the store has been closed — after any `Close` call, `Open` returns
invalid-state and leaves the store unchanged (still closed); on a store that
is open but not closed, `Open` never returns invalid-state. -/
theorem sqldb_open_invalidstate_amended (s : SQLDB) (w : Bool)
    (envC : CloseEnv) (envO : OpenEnv) :
    (((s.close w envC).store.openStore envO).err = some StoreErr.invalidState ∧
      ((s.close w envC).store.openStore envO).store = (s.close w envC).store) ∧
    (s.closed = false →
      (s.openStore envO).err ≠ some StoreErr.invalidState) := by
  constructor
  · rcases closed_after_close s w envC with h | ⟨hs, hc⟩
    · rw [openStore_of_closed _ _ h]
      exact ⟨rfl, rfl⟩
    · rw [hs, openStore_of_closed _ _ hc]
      exact ⟨rfl, rfl⟩
  · intro h
    unfold SQLDB.openStore
    by_cases h1 : s.memory <;>
      by_cases h3 : envO.removeFails <;>
        by_cases h4 : envO.newDBFails <;>
          by_cases h5 : envO.connectFails <;>
            simp_all

/-- Witness for C4 amended: concrete store closed then re-opened gives
invalid-state, while `Open` on the never-closed open store does not. -/
theorem sqldb_open_invalidstate_amended_witness :
    ((sampleOpenStore.close true ⟨false⟩).store.openStore
        ⟨false, false, false⟩).err = some StoreErr.invalidState ∧
    (sampleOpenStore.openStore ⟨false, false, false⟩).err
      ≠ some StoreErr.invalidState :=
  ⟨(sqldb_open_invalidstate_amended sampleOpenStore true ⟨false⟩
      ⟨false, false, false⟩).1.1,
   (sqldb_open_invalidstate_amended sampleOpenStore true ⟨false⟩
      ⟨false, false, false⟩).2 (by decide)⟩

/-- Claim C5: `Close` is idempotent — after one successful `Close`, every
further `Close` call returns no error and changes nothing. -/
theorem sqldb_close_idempotent (s : SQLDB) (w w1 : Bool)
    (env env1 : CloseEnv) (h : (s.close w env).err = none) :
    ((s.close w env).store.close w1 env1).err = none ∧
      ((s.close w env).store.close w1 env1).store = (s.close w env).store := by
  have hc : (s.close w env).store.closed = true := by
    rcases closed_after_close s w env with h1 | ⟨hs, h1⟩
    · exact h1
    · rw [hs]; exact h1
  generalize (s.close w env).store = s1 at hc ⊢
  unfold SQLDB.close
  simp [hc]

/-- Witness for C5: a concrete successful close followed by a second close
that returns no error and changes nothing. -/
theorem sqldb_close_idempotent_witness :
    ((sampleOpenStore.close true ⟨false⟩).store.close false ⟨true⟩).err = none ∧
      ((sampleOpenStore.close true ⟨false⟩).store.close false ⟨true⟩).store
        = (sampleOpenStore.close true ⟨false⟩).store :=
  sqldb_close_idempotent sampleOpenStore true false ⟨false⟩ ⟨true⟩ (by decide)

/-- Counterexample to claim C6 as stated: an `Open` on a fresh store whose
`Connect` call fails returns with the engine handle assigned and the
connection handle still nil — an intermediate state, neither fully open nor
fully closed. -/
theorem sqldb_handles_invariant_cex :
    ((mkSQLDB "/node" "" false).openStore ⟨false, false, true⟩).err
      = some StoreErr.connectErr ∧
    ((mkSQLDB "/node" "" false).openStore ⟨false, false, true⟩).store.db.isSome
      = true ∧
    ((mkSQLDB "/node" "" false).openStore ⟨false, false, true⟩).store.dbConn
      = none := by
  refine ⟨rfl, rfl, rfl⟩

/-- Claim C6 amended: the fully-open-or-fully-closed handle invariant is
preserved by every `Close` call and by every `Open` call that does not fail
while obtaining the utility connection; an `Open` failing at the connect
step leaves the engine handle set and the connection handle nil. -/
theorem sqldb_handles_invariant_amended (s : SQLDB) (w : Bool)
    (envC : CloseEnv) (envO : OpenEnv) (h : fullyOpenOrClosed s) :
    fullyOpenOrClosed (s.close w envC).store ∧
      ((s.openStore envO).err ≠ some StoreErr.connectErr →
        fullyOpenOrClosed (s.openStore envO).store) := by
  constructor
  · unfold SQLDB.close
    by_cases h1 : s.closed <;> by_cases h2 : envC.connCloseFails <;>
      simp_all [fullyOpenOrClosed]
  · intro hne
    unfold SQLDB.openStore at hne ⊢
    by_cases h1 : s.closed <;>
      by_cases h2 : s.memory <;>
        by_cases h3 : envO.removeFails <;>
          by_cases h4 : envO.newDBFails <;>
            by_cases h5 : envO.connectFails <;>
              simp_all [fullyOpenOrClosed]

/-- Witness for C6 amended: a fresh store satisfies the invariant after a
failing close and after a successful open. -/
theorem sqldb_handles_invariant_amended_witness :
    fullyOpenOrClosed ((mkSQLDB "/node" "" false).close true ⟨true⟩).store ∧
      (((mkSQLDB "/node" "" false).openStore ⟨false, false, false⟩).err
          ≠ some StoreErr.connectErr →
        fullyOpenOrClosed
          ((mkSQLDB "/node" "" false).openStore ⟨false, false, false⟩).store) :=
  sqldb_handles_invariant_amended (mkSQLDB "/node" "" false) true ⟨true⟩
    ⟨false, false, false⟩ (Or.inr ⟨rfl, rfl⟩)

/-- Claim C10: `Close` is terminal even when it fails — when closing the
utility connection errors on a not-yet-closed store, the error is returned
but the store is marked closed with both handles left untouched (still
non-null on an open store), a subsequent `Close` returns no error, and a
subsequent `Open` returns the invalid-state error. -/
theorem sqldb_close_terminal_on_error (s : SQLDB) (w w1 : Bool)
    (env1 : CloseEnv) (envO : OpenEnv) (h : s.closed = false) :
    (s.close w ⟨true⟩).err = some StoreErr.connCloseErr ∧
    (s.close w ⟨true⟩).store.closed = true ∧
    (s.close w ⟨true⟩).store.db = s.db ∧
    (s.close w ⟨true⟩).store.dbConn = s.dbConn ∧
    ((s.close w ⟨true⟩).store.close w1 env1).err = none ∧
    ((s.close w ⟨true⟩).store.openStore envO).err
      = some StoreErr.invalidState := by
  have hres : s.close w ⟨true⟩
      = ⟨some StoreErr.connCloseErr, { s with closed := true }⟩ := by
    unfold SQLDB.close
    simp [h]
  rw [hres]
  refine ⟨rfl, rfl, rfl, rfl, ?_, ?_⟩
  · unfold SQLDB.close
    simp
  · rw [openStore_of_closed _ _ rfl]

/-- Witness for C10: the failing close on the concrete open store returns
the error yet leaves the store closed with its handles intact. -/
theorem sqldb_close_terminal_on_error_witness :
    (sampleOpenStore.close true ⟨true⟩).err = some StoreErr.connCloseErr ∧
    (sampleOpenStore.close true ⟨true⟩).store.closed = true ∧
    (sampleOpenStore.close true ⟨true⟩).store.db = sampleOpenStore.db ∧
    (sampleOpenStore.close true ⟨true⟩).store.dbConn = sampleOpenStore.dbConn ∧
    ((sampleOpenStore.close true ⟨true⟩).store.close false ⟨false⟩).err = none ∧
    ((sampleOpenStore.close true ⟨true⟩).store.openStore
        ⟨false, false, false⟩).err = some StoreErr.invalidState :=
  sqldb_close_terminal_on_error sampleOpenStore true false ⟨false⟩
    ⟨false, false, false⟩ (by decide)

/-- Counterexample to claim C8 as stated: a fully successful `Backup` —
which certainly reaches the point of streaming — returns with the temporary
file still existing: the one `os.Remove` runs before the engine recreates
the file at that path, and nothing removes it afterwards. -/
theorem sqldb_backup_temp_remains_cex :
    (sampleOpenStore.backup
        ⟨false, false, false, false, false, false, false, false⟩).err = none ∧
    (sampleOpenStore.backup
        ⟨false, false, false, false, false, false, false, false⟩).dstContents
      = some sampleOpenStore.liveContents ∧
    (sampleOpenStore.backup
        ⟨false, false, false, false, false, false, false, false⟩).tempFileRemains
      = true := by
  refine ⟨rfl, rfl, rfl⟩

/-- Claim C8 amended: `Backup` streams the live contents into the
destination buffer on success, but the temporary file is removed only once,
before the engine instance is created at that path; on every exit path
after a successful engine creation — including success — the temporary file
still exists when `Backup` returns. -/
theorem sqldb_backup_temp_amended (s : SQLDB) (env : BackupEnv)
    (h1 : env.tempFileFails = false) (h2 : env.fCloseFails = false)
    (h3 : env.newDBFails = false) :
    (s.backup env).tempFileRemains = true ∧
      ((s.backup env).err = none →
        (s.backup env).dstContents = some s.liveContents) := by
  unfold SQLDB.backup
  by_cases h4 : env.connectFails <;>
    by_cases h5 : env.backupFails <;>
      by_cases h6 : env.connCloseFails <;>
        by_cases h7 : env.openFails <;>
          by_cases h8 : env.copyFails <;>
            simp_all

/-- Witness for C8 amended: the all-successful backup of the concrete store
leaves the temporary file in place and fills the destination. -/
theorem sqldb_backup_temp_amended_witness :
    (sampleOpenStore.backup
        ⟨false, false, false, false, false, false, false, false⟩).tempFileRemains
      = true ∧
    ((sampleOpenStore.backup
          ⟨false, false, false, false, false, false, false, false⟩).err = none →
      (sampleOpenStore.backup
          ⟨false, false, false, false, false, false, false, false⟩).dstContents
        = some sampleOpenStore.liveContents) :=
  sqldb_backup_temp_amended sampleOpenStore
    ⟨false, false, false, false, false, false, false, false⟩
    (by decide) (by decide) (by decide)

/-- Claim C7: `Restore` holds the restore lock exclusively while
`Execute`/`Query` hold it in shared mode, so under reader/writer-lock
semantics every interleaving of a reader with an in-flight restore either
completes its reads before the restore begins or sees the full post-restore
state: across all 256 candidate schedules of the two threads, every
schedule the lock admits leaves the reader with both rows from the same
epoch, never a mix of pre- and post-restore rows. -/
theorem sqldb_restore_exclusivity : ∀ n : Fin 256, schedOK n.val = true := by
  decide

/-! ## Peer-directory lemmas -/

/-- Reading the key just written returns the written value. -/
theorem mapGet_put_self (k : String) (v : Server) (m : List (String × Server)) :
    mapGet k (mapPut k v m) = some v := by
  simp [mapGet, mapPut]

/-- Writing a different key does not change a read. -/
theorem mapGet_put_ne (k k1 : String) (v : Server) (m : List (String × Server))
    (h : k1 ≠ k) : mapGet k (mapPut k1 v m) = mapGet k m := by
  simp [mapGet, mapPut, h]

/-- A deleted key reads as absent. -/
theorem mapGet_del_self (k : String) (m : List (String × Server)) :
    mapGet k (mapDel k m) = none := by
  induction m with
  | nil => rfl
  | cons p m ih =>
    obtain ⟨k1, v⟩ := p
    by_cases h : k1 = k <;> simp [mapDel, mapGet, h, ih]

/-- Deleting a different key does not change a read. -/
theorem mapGet_del_ne (k k1 : String) (m : List (String × Server))
    (h : k1 ≠ k) : mapGet k (mapDel k1 m) = mapGet k m := by
  have hks : k ≠ k1 := Ne.symm h
  induction m with
  | nil => rfl
  | cons p m ih =>
    obtain ⟨k2, v⟩ := p
    by_cases h2 : k2 = k1
    · subst h2
      simp [mapDel, mapGet, h, hks, ih]
    · by_cases h3 : k2 = k <;> simp [mapDel, mapGet, h, hks, h2, h3, ih]

/-- Running one more call applies it to the directory built so far. -/
theorem runOps_concat (ops : List SLOp) (op : SLOp) :
    runOps (ops ++ [op]) = applyOp (runOps ops) op := by
  simp [runOps, List.foldl_append]

/-- The add/remove verdict after one more call. -/
theorem lastStatus_concat (s : Server) (ops : List SLOp) (op : SLOp) :
    lastStatus s (ops ++ [op]) = statusStep s (lastStatus s ops) op := by
  simp [lastStatus, List.foldl_append]

/-- A server with a verdict is mentioned by some call. -/
theorem lastStatus_mem (s : Server) (ops : List SLOp) (b : Bool)
    (h : lastStatus s ops = some b) : ∃ op ∈ ops, opServer op = s := by
  induction ops using List.reverseRecOn with
  | nil => simp [lastStatus] at h
  | append_singleton ops op ih =>
    rw [lastStatus_concat] at h
    by_cases he : opServer op = s
    · exact ⟨op, by simp, he⟩
    · rw [statusStep, if_neg he] at h
      obtain ⟨op1, hmem, hs1⟩ := ih h
      exact ⟨op1, by simp [hmem], hs1⟩

/-- After `AddServer t`, both lookups find `t` itself. -/
theorem lookup_add_self (L : ServerLookup) (t : Server) :
    (L.addServer t).serverAddr t.id = some t.addr ∧
      (L.addServer t).server t.addr = some t := by
  constructor <;>
    simp [ServerLookup.addServer, ServerLookup.serverAddr, ServerLookup.server,
      mapGet_put_self]

/-- `AddServer t` does not disturb lookups of a key-disjoint server. -/
theorem lookup_add_other (L : ServerLookup) (t s : Server)
    (hid : t.id ≠ s.id) (haddr : t.addr ≠ s.addr) :
    (L.addServer t).serverAddr s.id = L.serverAddr s.id ∧
      (L.addServer t).server s.addr = L.server s.addr := by
  constructor <;>
    simp [ServerLookup.addServer, ServerLookup.serverAddr, ServerLookup.server,
      mapGet_put_ne _ _ _ _ hid, mapGet_put_ne _ _ _ _ haddr]

/-- After `RemoveServer t`, both lookups report `t` absent. -/
theorem lookup_remove_self (L : ServerLookup) (t : Server) :
    (L.removeServer t).serverAddr t.id = none ∧
      (L.removeServer t).server t.addr = none := by
  constructor <;>
    simp [ServerLookup.removeServer, ServerLookup.serverAddr,
      ServerLookup.server, mapGet_del_self]

/-- `RemoveServer t` does not disturb lookups of a key-disjoint server. -/
theorem lookup_remove_other (L : ServerLookup) (t s : Server)
    (hid : t.id ≠ s.id) (haddr : t.addr ≠ s.addr) :
    (L.removeServer t).serverAddr s.id = L.serverAddr s.id ∧
      (L.removeServer t).server s.addr = L.server s.addr := by
  constructor <;>
    simp [ServerLookup.removeServer, ServerLookup.serverAddr,
      ServerLookup.server, mapGet_del_ne _ _ _ hid, mapGet_del_ne _ _ _ haddr]

/-- Counterexample to claim C9 as stated: two distinct peers sharing one
address.  Peer `("1", "A")` is added and never removed, and `AddressFor`
still returns its address, yet `ServerFor` of its address returns the other
peer, not it. -/
theorem serverlookup_bidirectional_cex :
    lastStatus ⟨"1", "A"⟩ [SLOp.add ⟨"1", "A"⟩, SLOp.add ⟨"2", "A"⟩]
      = some true ∧
    (runOps [SLOp.add ⟨"1", "A"⟩, SLOp.add ⟨"2", "A"⟩]).serverAddr "1"
      = some "A" ∧
    ¬ ((runOps [SLOp.add ⟨"1", "A"⟩, SLOp.add ⟨"2", "A"⟩]).server "A"
      = some ⟨"1", "A"⟩) := by
  decide

/-- Claim C9 amended: provided all peers mentioned in the call sequence are
pairwise either the same peer or disjoint in both id and address, every peer
whose last mentioning call is an `AddServer` has `AddressFor` of its id
return its address and `ServerFor` of its address return the peer itself,
and every peer whose last mentioning call is a `RemoveServer` has both
lookups report absence. -/
theorem serverlookup_bidirectional_amended (ops : List SLOp) (s : Server)
    (hg : goodOps ops) :
    (lastStatus s ops = some true →
      (runOps ops).serverAddr s.id = some s.addr ∧
        (runOps ops).server s.addr = some s) ∧
    (lastStatus s ops = some false →
      (runOps ops).serverAddr s.id = none ∧
        (runOps ops).server s.addr = none) := by
  induction ops using List.reverseRecOn with
  | nil => constructor <;> intro h <;> simp [lastStatus] at h
  | append_singleton ops op ih =>
    have hg0 : goodOps ops := fun op1 h1 op2 h2 =>
      hg op1 (by simp [h1]) op2 (by simp [h2])
    have ih := ih hg0
    rw [lastStatus_concat, runOps_concat]
    have hkeys : ∀ b : Bool, lastStatus s ops = some b →
        opServer op ≠ s →
        (opServer op).id ≠ s.id ∧ (opServer op).addr ≠ s.addr := by
      intro b hb hne
      obtain ⟨op1, hmem, hs1⟩ := lastStatus_mem s ops b hb
      have hdk := hg op1 (by simp [hmem]) op (by simp)
      rw [hs1] at hdk
      rcases hdk with he | ⟨hid, haddr⟩
      · exact absurd he.symm hne
      · exact ⟨fun h1 => hid h1.symm, fun h1 => haddr h1.symm⟩
    cases op with
    | add t =>
      simp only [applyOp]
      by_cases ht : t = s
      · subst ht
        constructor
        · intro _
          exact lookup_add_self (runOps ops) t
        · intro h
          simp [statusStep, opServer, isAdd] at h
      · have hstep : statusStep s (lastStatus s ops) (SLOp.add t)
            = lastStatus s ops := by
          simp [statusStep, opServer, ht]
        rw [hstep]
        constructor
        · intro h
          obtain ⟨hid, haddr⟩ := hkeys true h ht
          obtain ⟨h1, h2⟩ := lookup_add_other (runOps ops) t s hid haddr
          rw [h1, h2]
          exact ih.1 h
        · intro h
          obtain ⟨hid, haddr⟩ := hkeys false h ht
          obtain ⟨h1, h2⟩ := lookup_add_other (runOps ops) t s hid haddr
          rw [h1, h2]
          exact ih.2 h
    | remove t =>
      simp only [applyOp]
      by_cases ht : t = s
      · subst ht
        constructor
        · intro h
          simp [statusStep, opServer, isAdd] at h
        · intro _
          exact lookup_remove_self (runOps ops) t
      · have hstep : statusStep s (lastStatus s ops) (SLOp.remove t)
            = lastStatus s ops := by
          simp [statusStep, opServer, ht]
        rw [hstep]
        constructor
        · intro h
          obtain ⟨hid, haddr⟩ := hkeys true h ht
          obtain ⟨h1, h2⟩ := lookup_remove_other (runOps ops) t s hid haddr
          rw [h1, h2]
          exact ih.1 h
        · intro h
          obtain ⟨hid, haddr⟩ := hkeys false h ht
          obtain ⟨h1, h2⟩ := lookup_remove_other (runOps ops) t s hid haddr
          rw [h1, h2]
          exact ih.2 h

/-- Witness for C9 amended: a concrete sequence adding two key-disjoint
peers and removing the second — the surviving peer's lookups are mutually
consistent and the removed peer's lookups both report absence. -/
theorem serverlookup_bidirectional_amended_witness :
    ((runOps [SLOp.add ⟨"1", "A"⟩, SLOp.add ⟨"2", "B"⟩,
        SLOp.remove ⟨"2", "B"⟩]).serverAddr "1" = some "A" ∧
      (runOps [SLOp.add ⟨"1", "A"⟩, SLOp.add ⟨"2", "B"⟩,
        SLOp.remove ⟨"2", "B"⟩]).server "A" = some ⟨"1", "A"⟩) ∧
    ((runOps [SLOp.add ⟨"1", "A"⟩, SLOp.add ⟨"2", "B"⟩,
        SLOp.remove ⟨"2", "B"⟩]).serverAddr "2" = none ∧
      (runOps [SLOp.add ⟨"1", "A"⟩, SLOp.add ⟨"2", "B"⟩,
        SLOp.remove ⟨"2", "B"⟩]).server "B" = none) :=
  ⟨(serverlookup_bidirectional_amended
      [SLOp.add ⟨"1", "A"⟩, SLOp.add ⟨"2", "B"⟩, SLOp.remove ⟨"2", "B"⟩]
      ⟨"1", "A"⟩ (by unfold goodOps distinctKeys; decide)).1 (by decide),
   (serverlookup_bidirectional_amended
      [SLOp.add ⟨"1", "A"⟩, SLOp.add ⟨"2", "B"⟩, SLOp.remove ⟨"2", "B"⟩]
      ⟨"2", "B"⟩ (by unfold goodOps distinctKeys; decide)).2 (by decide)⟩

end Consul
